import Mathlib

/-!
Shallow embedding of the brainloop-mcp-server OAuth 2.1 provider and MCP
session manager, translated from the TypeScript sources:
the OAuthProvider class (token endpoint, Google callback, redirect-URI
validation, JWT mint/verify), the MCPHandler class (session dispatch and
idle cleanup), and BrainloopService.makeRequest (downstream API calls with
a single refresh-and-retry).

JavaScript Map objects are modelled as association lists with
first-match lookup; Map.set and Map.delete are modelled so that keys stay
unique.  JavaScript string truthiness (undefined and the empty string are
falsy) is modelled explicitly.  Times are Nat milliseconds.  The SHA-256
base64url PKCE hash (generateCodeChallenge) and the JWT HMAC signature are
external crypto primitives; the hash is an abstract function parameter and
the signature is modelled symbolically by recording the signing key.
-/

namespace BrainloopModel

/-- Map.get modelled on an association list: first matching key. -/
def mapGet {α : Type} (m : List (String × α)) (k : String) : Option α :=
  m.lookup k

/-- Map.delete: removes the entry with the given key. -/
def mapDelete {α : Type} (m : List (String × α)) (k : String) : List (String × α) :=
  m.filter (fun p => p.1 ≠ k)

/-- Map.set: inserts or replaces the entry with the given key. -/
def mapSet {α : Type} (m : List (String × α)) (k : String) (v : α) : List (String × α) :=
  (k, v) :: mapDelete m k

theorem mapDelete_cons_eq {α : Type} (a : String) (b : α)
    (m : List (String × α)) (k : String) (h : a = k) :
    mapDelete ((a, b) :: m) k = mapDelete m k := by
  simp [mapDelete, List.filter_cons, h]

theorem mapDelete_cons_ne {α : Type} (a : String) (b : α)
    (m : List (String × α)) (k : String) (h : a ≠ k) :
    mapDelete ((a, b) :: m) k = (a, b) :: mapDelete m k := by
  simp [mapDelete, List.filter_cons, h]

theorem mapGet_mapDelete_self {α : Type} (m : List (String × α)) (k : String) :
    mapGet (mapDelete m k) k = none := by
  induction m with
  | nil => rfl
  | cons p m ih =>
    obtain ⟨a, b⟩ := p
    simp only [mapGet] at ih ⊢
    by_cases h : a = k
    · rw [mapDelete_cons_eq a b m k h]; exact ih
    · have hk : (k == a) = false := beq_eq_false_iff_ne.mpr (Ne.symm h)
      rw [mapDelete_cons_ne a b m k h, List.lookup_cons]
      simp only [hk]
      exact ih

theorem mapGet_mapSet_self {α : Type} (m : List (String × α)) (k : String) (v : α) :
    mapGet (mapSet m k v) k = some v := by
  simp [mapGet, mapSet]

theorem mapGet_mapDelete_ne {α : Type} (m : List (String × α)) (k k' : String)
    (h : k' ≠ k) : mapGet (mapDelete m k) k' = mapGet m k' := by
  induction m with
  | nil => rfl
  | cons p m ih =>
    obtain ⟨a, b⟩ := p
    simp only [mapGet] at ih ⊢
    by_cases hp : a = k
    · have hk : (k' == a) = false := beq_eq_false_iff_ne.mpr (hp ▸ h)
      rw [mapDelete_cons_eq a b m k hp, List.lookup_cons]
      simp only [hk]
      exact ih
    · rw [mapDelete_cons_ne a b m k hp, List.lookup_cons, List.lookup_cons]
      cases hk : k' == a with
      | true => rfl
      | false => exact ih

/-- JavaScript truthiness of an optional string: undefined and the empty
string are falsy. -/
def truthy : Option String → Bool
  | none => false
  | some s => s != ""

/-! ## OAuth provider data model (oauth.ts) -/

/-- Google access and refresh token pair carried through the flow. -/
structure GoogleTokens where
  accessToken : String
  refreshToken : String
deriving DecidableEq, Repr

/-- PendingAuthorization record stored at the /oauth/authorize endpoint. -/
structure PendingAuthorization where
  clientId : String
  redirectUri : String
  codeChallenge : String
  codeChallengeMethod : String
  state : String
  scope : String
  googleState : String
deriving DecidableEq, Repr

/-- AuthorizationCode record stored by the Google callback handler. -/
structure AuthorizationCode where
  clientId : String
  redirectUri : String
  codeChallenge : String
  userId : String
  googleTokens : GoogleTokens
  scope : String
  expiresAt : Nat
deriving DecidableEq, Repr

/-- RefreshTokenData record stored at a successful code exchange. -/
structure RefreshTokenData where
  userId : String
  clientId : String
  googleTokens : GoogleTokens
  scope : String
  expiresAt : Nat
deriving DecidableEq, Repr

/-- The three in-memory stores owned by the OAuthProvider instance. -/
structure OAuthStores where
  pendingAuthorizations : List (String × PendingAuthorization)
  authorizationCodes : List (String × AuthorizationCode)
  refreshTokens : List (String × RefreshTokenData)
deriving DecidableEq, Repr

/-- AUTHORIZATION_CODE_TIMEOUT_MS = 10 minutes. -/
def AUTHORIZATION_CODE_TIMEOUT_MS : Nat := 10 * 60 * 1000

/-- REFRESH_TOKEN_TIMEOUT_MS = 30 days. -/
def REFRESH_TOKEN_TIMEOUT_MS : Nat := 30 * 24 * 60 * 60 * 1000

/-! ## JWT model (createAccessToken / verifyAccessToken)

A signed JWT is modelled symbolically: the payload claims plus the key the
token was signed with.  jwtVerify(token, secret, {audience, issuer})
succeeds exactly when the signature key matches the secret, the aud and
iss claims match, and the exp claim lies in the future. -/

/-- Payload claims of the access-token JWT minted by createAccessToken. -/
structure JwtPayload where
  sub : String
  google_access_token : String
  google_refresh_token : String
  aud : String
  iss : String
  iat : Nat
  exp : Nat
deriving DecidableEq, Repr

/-- A signed JWT: payload plus the (symbolic) signing key. -/
structure Jwt where
  payload : JwtPayload
  signedWith : String
deriving DecidableEq, Repr

/-- createAccessToken: signs {sub, google_access_token, google_refresh_token}
with HS256 under the provider secret, audience brainloop-mcp-server,
configured issuer, expiration 24 hours (86400 seconds) after issue. -/
def createAccessToken (jwtSecret issuer : String) (now : Nat)
    (userId : String) (googleTokens : GoogleTokens) : Jwt :=
  { payload :=
      { sub := userId
        google_access_token := googleTokens.accessToken
        google_refresh_token := googleTokens.refreshToken
        aud := "brainloop-mcp-server"
        iss := issuer
        iat := now
        exp := now + 86400 }
    signedWith := jwtSecret }

/-- AuthInfo returned by verifyAccessToken on success. -/
structure AuthInfo where
  token : Jwt
  clientId : String
  scopes : List String
  expiresAt : Nat
  userId : String
  googleAccessToken : String
  googleRefreshToken : String
deriving DecidableEq, Repr

/-- verifyAccessToken: jwtVerify against the provider secret with fixed
audience brainloop-mcp-server and the configured issuer; expiry must lie
strictly in the future.  Any failure throws, surfaced as the single
invalid-token error string.  On success the AuthInfo carries the fixed
clientId mcp-client and scopes [read] plus the embedded claims. -/
def verifyAccessToken (jwtSecret issuer : String) (now : Nat) (t : Jwt) :
    Except String AuthInfo :=
  if t.signedWith = jwtSecret ∧ t.payload.aud = "brainloop-mcp-server" ∧
      t.payload.iss = issuer ∧ now < t.payload.exp then
    .ok
      { token := t
        clientId := "mcp-client"
        scopes := ["read"]
        expiresAt := t.payload.exp
        userId := t.payload.sub
        googleAccessToken := t.payload.google_access_token
        googleRefreshToken := t.payload.google_refresh_token }
  else
    .error "Invalid or expired access token"

/-! ## Token endpoint (POST /oauth/token) -/

/-- Outcome of a token-endpoint request: either a JSON token response or a
JSON error response with an HTTP status. -/
inductive TokenOutcome where
  | success (accessToken : Jwt) (tokenType : String) (expiresIn : Nat)
      (refreshToken : Option String) (scope : String)
  | errorResp (status : Nat) (error : String) (description : String)
deriving DecidableEq, Repr

/-- The POST /oauth/token handler.  Parameters absent from the request body
are none; JavaScript truthiness decides the missing-parameter checks.
hash abstracts generateCodeChallenge (SHA-256, base64url, unpadded);
newRefreshTokenId abstracts the randomBytes(32).toString(hex) draw.
Mirrored behaviour: on a missing or expired code the entry is deleted and
invalid_grant returned; on a PKCE mismatch invalid_grant is returned with
no deletion; on success a RefreshTokenData is stored, the code is deleted
and a Bearer response with expires_in 86400 is returned.  The
refresh_token grant mints a new token from the stored record. -/
def tokenEndpoint (jwtSecret issuer : String) (hash : String → String)
    (st : OAuthStores) (now : Nat)
    (grantType codeP redirectUriP codeVerifierP clientIdP refreshTokenP : Option String)
    (newRefreshTokenId : String) : OAuthStores × TokenOutcome :=
  if grantType = some "authorization_code" then
    if truthy codeP && truthy redirectUriP && truthy codeVerifierP && truthy clientIdP then
      let c := codeP.getD ""
      let v := codeVerifierP.getD ""
      match mapGet st.authorizationCodes c with
      | none =>
          ({ st with authorizationCodes := mapDelete st.authorizationCodes c },
           .errorResp 400 "invalid_grant" "Invalid or expired authorization code")
      | some authCode =>
          if authCode.expiresAt < now then
            ({ st with authorizationCodes := mapDelete st.authorizationCodes c },
             .errorResp 400 "invalid_grant" "Invalid or expired authorization code")
          else if hash v ≠ authCode.codeChallenge then
            (st, .errorResp 400 "invalid_grant" "Invalid code verifier")
          else
            ({ st with
                refreshTokens := mapSet st.refreshTokens newRefreshTokenId
                  { userId := authCode.userId
                    clientId := authCode.clientId
                    googleTokens := authCode.googleTokens
                    scope := authCode.scope
                    expiresAt := now + REFRESH_TOKEN_TIMEOUT_MS }
                authorizationCodes := mapDelete st.authorizationCodes c },
             .success (createAccessToken jwtSecret issuer now authCode.userId authCode.googleTokens)
               "Bearer" 86400 (some newRefreshTokenId) authCode.scope)
    else
      (st, .errorResp 400 "invalid_request" "Missing required parameters")
  else if grantType = some "refresh_token" then
    if truthy refreshTokenP then
      let rt := refreshTokenP.getD ""
      match mapGet st.refreshTokens rt with
      | none =>
          ({ st with refreshTokens := mapDelete st.refreshTokens rt },
           .errorResp 400 "invalid_grant" "Invalid or expired refresh token")
      | some tokenData =>
          if tokenData.expiresAt < now then
            ({ st with refreshTokens := mapDelete st.refreshTokens rt },
             .errorResp 400 "invalid_grant" "Invalid or expired refresh token")
          else
            (st, .success (createAccessToken jwtSecret issuer now tokenData.userId tokenData.googleTokens)
              "Bearer" 86400 none tokenData.scope)
    else
      (st, .errorResp 400 "invalid_request" "Missing refresh token")
  else
    (st, .errorResp 400 "unsupported_grant_type"
      "Only authorization_code and refresh_token grant types are supported")

/-- True exactly for a response whose token_type is Bearer. -/
def TokenOutcome.isBearerSuccess : TokenOutcome → Bool
  | .success _ tokenType _ _ _ => tokenType == "Bearer"
  | .errorResp _ _ _ => false

/-! ## Google OAuth callback (GET /oauth/google/callback) -/

/-- Outcome of the callback: a redirect back to the client carrying code
and state, or a JSON error response. -/
inductive CallbackOutcome where
  | redirect (uri : String) (code : String) (state : String)
  | errorResp (status : Nat) (error : String) (description : String)
deriving DecidableEq, Repr

/-- Destructuring of const [authKey, googleState] = state.split(":"):
the first element is the text before the first colon, and the second — the
text between the first and second colons — is absent when the input has no
colon at all. -/
def splitState (s : String) : String × Option String :=
  let cs := s.toList
  let key := cs.takeWhile (fun c => c ≠ ':')
  match cs.dropWhile (fun c => c ≠ ':') with
  | [] => (String.mk key, none)
  | _ :: after => (String.mk key, some (String.mk (after.takeWhile (fun c => c ≠ ':'))))

/-- The GET /oauth/google/callback handler, modelled at the point where the
upstream network results are known: googleAccess/googleRefresh are the
tokens returned by exchangeGoogleCode, userEmail is the profile email, and
upstreamOk is false when either upstream call fails (the catch produces a
500 server_error).  newAuthCode abstracts the random code draw.
Mirrored behaviour: a truthy error query fails access_denied; missing code
or state fails invalid_request; a missing pending entry or googleState
mismatch fails invalid_request with no state change; on a match the
AuthorizationCode bound to the pending codeChallenge and redirectUri is
stored, the pending entry deleted, and the client redirected with the code
and the original state. -/
def handleGoogleCallback (st : OAuthStores) (now : Nat)
    (codeP stateP errorP : Option String)
    (upstreamOk : Bool) (googleAccess googleRefresh userEmail : String)
    (newAuthCode : String) : OAuthStores × CallbackOutcome :=
  if truthy errorP then
    (st, .errorResp 400 "access_denied" "User denied authorization")
  else if !(truthy codeP && truthy stateP) then
    (st, .errorResp 400 "invalid_request" "Missing code or state parameter")
  else
    let s := stateP.getD ""
    let parts := splitState s
    match mapGet st.pendingAuthorizations parts.1 with
    | none => (st, .errorResp 400 "invalid_request" "Invalid state parameter")
    | some pendingAuth =>
        if parts.2 ≠ some pendingAuth.googleState then
          (st, .errorResp 400 "invalid_request" "Invalid state parameter")
        else if !upstreamOk then
          (st, .errorResp 500 "server_error" "Internal server error during authorization")
        else
          ({ st with
              authorizationCodes := mapSet st.authorizationCodes newAuthCode
                { clientId := pendingAuth.clientId
                  redirectUri := pendingAuth.redirectUri
                  codeChallenge := pendingAuth.codeChallenge
                  userId := userEmail
                  googleTokens := { accessToken := googleAccess, refreshToken := googleRefresh }
                  scope := pendingAuth.scope
                  expiresAt := now + AUTHORIZATION_CODE_TIMEOUT_MS }
              pendingAuthorizations := mapDelete st.pendingAuthorizations parts.1 },
           .redirect pendingAuth.redirectUri newAuthCode pendingAuth.state)

/-! ## Redirect-URI validation (shared by /oauth/authorize and /oauth/register)

The WHATWG URL parser is modelled just far enough for the validation code:
new URL(uri) succeeds when the input starts with a scheme — an ASCII
letter followed by letters, digits, plus, minus or dot — terminated by a
colon; url.protocol is the lowercased scheme with the colon, and
url.hostname is the lowercased authority section after a double slash, up
to the next slash, colon, question mark or hash. -/

/-- Characters allowed after the first character of a URL scheme. -/
def isSchemeChar (c : Char) : Bool :=
  c.isAlpha || c.isDigit || c == '+' || c == '.' || c == '-'

/-- The protocol and hostname of a parsed URL. -/
structure URLParts where
  protocol : String
  hostname : String
deriving DecidableEq, Repr

/-- Characters terminating the hostname section. -/
def isHostEnd (c : Char) : Bool :=
  c == '/' || c == ':' || c == '?' || c == '#'

/-- Minimal model of new URL: extracts protocol and hostname, failing when
no well-formed scheme is present. -/
def parseURL (s : String) : Option URLParts :=
  let cs := s.toList
  let scheme := cs.takeWhile (fun c => c ≠ ':')
  let rest := cs.dropWhile (fun c => c ≠ ':')
  match rest with
  | [] => none
  | _ :: afterColon =>
      match scheme with
      | [] => none
      | c0 :: schemeRest =>
          if c0.isAlpha && schemeRest.all isSchemeChar then
            let hostname :=
              match afterColon with
              | '/' :: '/' :: hostPart =>
                  String.mk ((hostPart.takeWhile (fun c => !isHostEnd c)).map Char.toLower)
              | _ => ""
            some { protocol := String.mk ((scheme.map Char.toLower) ++ [':'])
                   hostname := hostname }
          else none

/-- The regular expression test url.protocol.match of
caret [a-zA-Z][a-zA-Z0-9+.-] star colon dollar, applied to a protocol
string. -/
def protocolMatchesCustomScheme (p : String) : Bool :=
  match p.toList with
  | [] => false
  | c0 :: rest =>
      match rest.getLast? with
      | none => false
      | some last => c0.isAlpha && last == ':' && (rest.dropLast).all isSchemeChar

/-- The redirect-URI validation used by both the /oauth/authorize endpoint
and the /oauth/register endpoint: HTTPS allowed; HTTP allowed for
hostname localhost or 127.0.0.1; any protocol matching the custom-scheme
pattern allowed; otherwise, and on a parse failure, rejected. -/
def validateRedirectUri (uri : String) : Bool :=
  match parseURL uri with
  | none => false
  | some u =>
      if u.protocol = "https:" then true
      else if u.protocol = "http:" ∧ (u.hostname = "localhost" ∨ u.hostname = "127.0.0.1") then
        true
      else if protocolMatchesCustomScheme u.protocol then true
      else false

/-! ## MCP session manager (mcp.ts) -/

/-- Per-session auth context extracted from the verified bearer token. -/
structure SessionAuth where
  accessToken : String
  refreshToken : String
  username : String
deriving DecidableEq, Repr

/-- SessionInfo map entry; the protocol Server and transport are live
resources represented by the session id they belong to. -/
structure MSessionInfo where
  auth : Option SessionAuth
  createdAt : Nat
  lastAccessed : Nat
deriving DecidableEq, Repr

/-- SESSION_TIMEOUT_MS = 1 hour. -/
def SESSION_TIMEOUT_MS : Nat := 60 * 60 * 1000

/-- Extraction of the session auth snapshot from req.auth: present exactly
when the verified token carries a truthy googleAccessToken; a falsy
googleRefreshToken becomes the empty string and a falsy userId becomes
unknown. -/
def extractSessionAuth (auth : Option AuthInfo) : Option SessionAuth :=
  match auth with
  | none => none
  | some a =>
      if a.googleAccessToken ≠ "" then
        some { accessToken := a.googleAccessToken
               refreshToken := a.googleRefreshToken
               username := if a.userId ≠ "" then a.userId else "unknown" }
      else none

/-- What MCPHandler.handleRequest does with a request after the branch on
the session id: serve it through an existing transport, serve it through a
newly created session, or answer with a JSON-RPC error. -/
inductive DispatchAction where
  | servedExisting (sessionId : String)
  | servedNew (sessionId : String) (auth : Option SessionAuth)
  | errorResp (status : Nat) (code : Int) (message : String)
deriving DecidableEq, Repr

/-- MCPHandler.handleRequest branch structure.  sessionIdP is the
mcp-session-id header (none when absent); JavaScript truthiness governs
every test on it, so the empty string behaves like an absent header.
generatedId abstracts the session_ timestamp random id used when a POST
arrives without a session id.  A known session id is served after bumping
lastAccessed; an unknown truthy session id, or a POST without one, gets a
fresh server, transport and extracted auth snapshot stored under
newSessionId; everything else is answered with a JSON-RPC error object. -/
def handleRequest (sessions : List (String × MSessionInfo))
    (sessionIdP : Option String) (methodIsPost : Bool)
    (auth : Option AuthInfo) (now : Nat) (generatedId : String) :
    List (String × MSessionInfo) × DispatchAction :=
  let sid := sessionIdP.getD ""
  if truthy sessionIdP && (mapGet sessions sid).isSome then
    -- the source reads the entry with a non-null assertion; the guard
    -- guarantees presence, so the default value is never used
    let info := (mapGet sessions sid).getD { auth := none, createdAt := 0, lastAccessed := 0 }
    (mapSet sessions sid { info with lastAccessed := now }, .servedExisting sid)
  else if (truthy sessionIdP && !(mapGet sessions sid).isSome)
      || (!truthy sessionIdP && methodIsPost) then
    let newSessionId := if truthy sessionIdP then sid else generatedId
    let sessionAuth := extractSessionAuth auth
    (mapSet sessions newSessionId
        { auth := sessionAuth, createdAt := now, lastAccessed := now },
     .servedNew newSessionId sessionAuth)
  else
    (sessions,
     if truthy sessionIdP then .errorResp 404 (-32001) "Session not found"
     else .errorResp 400 (-32600) "Missing session ID or not initialization request")

/-- Observable steps of cleanupOldSessions: each evicted session has its
Server closed, its transport closed, and its map entry deleted. -/
inductive CleanupEvent where
  | closedServer (sessionId : String)
  | closedTransport (sessionId : String)
  | deleted (sessionId : String)
deriving DecidableEq, Repr

/-- MCPHandler.cleanupOldSessions: walks the session entries and, for each
whose idle age now - lastAccessed strictly exceeds SESSION_TIMEOUT_MS,
closes the server, closes the transport and deletes the entry. -/
def cleanupOldSessions (now : Nat) :
    List (String × MSessionInfo) → List (String × MSessionInfo) × List CleanupEvent
  | [] => ([], [])
  | (sid, info) :: rest =>
      let r := cleanupOldSessions now rest
      if now - info.lastAccessed > SESSION_TIMEOUT_MS then
        (r.1, [.closedServer sid, .closedTransport sid, .deleted sid] ++ r.2)
      else ((sid, info) :: r.1, r.2)

/-! ## Downstream BRAINLOOP API service (brainloop-service.ts makeRequest)

The fetch responses of the two possible attempts are supplied as values
(response bodies are treated as re-readable text), and the refresh
callback built by MCPHandler.createServer is modelled by its effect: on
success it mutates the session snapshot with the new Google tokens and
returns the new access token, on failure the error propagates. -/

/-- An HTTP response as makeRequest observes it. -/
structure HttpResp where
  status : Nat
  body : String
deriving DecidableEq, Repr

/-- response.ok: status in the range 200 to 299. -/
def respOk (r : HttpResp) : Bool :=
  200 ≤ r.status && r.status < 300

/-- Substring containment on character lists, the semantics of
String.prototype.includes. -/
def containsChars (hay needle : List Char) : Bool :=
  match hay with
  | [] => needle.isEmpty
  | _ :: t => needle.isPrefixOf hay || containsChars t needle

/-- errorText.includes(sub). -/
def containsSubstr (s sub : String) : Bool :=
  containsChars s.toList sub.toList

/-- The token-expiration test applied to a 401 body. -/
def isTokenExpiredBody (body : String) : Bool :=
  containsSubstr body "Invalid access token" || containsSubstr body "expired"

/-- The message thrown for a non-ok response, built from its status and
body text. -/
def apiErrorMsg (r : HttpResp) : String :=
  "BRAINLOOP API error: " ++ toString r.status ++ ": " ++ r.body

/-- The refreshTokenCallback closure from MCPHandler.createServer:
refreshGoogleAccessToken either fails (error rethrown) or yields new
Google tokens, in which case the callback writes both tokens into the
session snapshot in place and returns the new access token. -/
def refreshCallbackModel (refreshResult : Except String GoogleTokens)
    (sa : SessionAuth) : Except String (String × SessionAuth) :=
  match refreshResult with
  | .error e => .error e
  | .ok nt =>
      .ok (nt.accessToken,
        { sa with accessToken := nt.accessToken, refreshToken := nt.refreshToken })

/-- Observable result of one makeRequest call: its outcome, the bearer
token sent on each attempt in order, how many times the refresh callback
ran, and the session snapshot afterwards. -/
structure ReqResult where
  outcome : Except String String
  tokensUsed : List String
  refreshCount : Nat
  finalAuth : SessionAuth
deriving Repr

/-- BrainloopService.makeRequest, entered with isRetry false.  The first
attempt sends the current access token and receives resp1.  A 401 with a
configured callback and a body naming an invalid or expired token runs the
callback once and retries exactly once with the returned token, receiving
resp2; because the retry passes isRetry true, its 401 handling is skipped
and any non-ok status throws.  A 401 whose body matches neither substring
falls through to the ordinary non-ok throw with no refresh. -/
def makeRequest (resp1 resp2 : HttpResp) (hasCallback : Bool)
    (refreshResult : Except String GoogleTokens) (sa : SessionAuth) : ReqResult :=
  if resp1.status = 401 ∧ hasCallback = true ∧ isTokenExpiredBody resp1.body = true then
    match refreshCallbackModel refreshResult sa with
    | .error _ =>
        { outcome := .error "Authentication failed: Unable to refresh access token"
          tokensUsed := [sa.accessToken]
          refreshCount := 1
          finalAuth := sa }
    | .ok (newTok, sa2) =>
        if respOk resp2 = true then
          { outcome := .ok resp2.body
            tokensUsed := [sa.accessToken, newTok]
            refreshCount := 1
            finalAuth := sa2 }
        else
          { outcome := .error (apiErrorMsg resp2)
            tokensUsed := [sa.accessToken, newTok]
            refreshCount := 1
            finalAuth := sa2 }
  else if respOk resp1 = true then
    { outcome := .ok resp1.body
      tokensUsed := [sa.accessToken]
      refreshCount := 0
      finalAuth := sa }
  else
    { outcome := .error (apiErrorMsg resp1)
      tokensUsed := [sa.accessToken]
      refreshCount := 0
      finalAuth := sa }

/-! ## Concrete sample values used by witnesses and counterexamples -/

/-- A concrete stand-in for the PKCE hash, injective on the inputs used. -/
def sampleHash (s : String) : String := "H" ++ s

/-- A stored authorization code whose challenge is sampleHash of v. -/
def sampleAuthCode : AuthorizationCode :=
  { clientId := "cl"
    redirectUri := "https://a/cb"
    codeChallenge := "Hv"
    userId := "u@example.com"
    googleTokens := { accessToken := "ga", refreshToken := "gr" }
    scope := "read"
    expiresAt := 1000 }

/-- Stores holding exactly the sample authorization code under code1. -/
def sampleStores : OAuthStores :=
  { pendingAuthorizations := []
    authorizationCodes := [("code1", sampleAuthCode)]
    refreshTokens := [] }

/-- A pending authorization awaiting the Google callback. -/
def samplePending : PendingAuthorization :=
  { clientId := "cl"
    redirectUri := "https://a/cb"
    codeChallenge := "CH"
    codeChallengeMethod := "S256"
    state := "origstate"
    scope := "read"
    googleState := "g1" }

/-- Stores holding exactly the sample pending authorization under k1. -/
def samplePendingStores : OAuthStores :=
  { pendingAuthorizations := [("k1", samplePending)]
    authorizationCodes := []
    refreshTokens := [] }

/-- A session credential snapshot. -/
def sampleSessionAuth : SessionAuth :=
  { accessToken := "tok0", refreshToken := "ref0", username := "u" }

/-- A token minted at time 50 for the sample user. -/
def sampleJwt : Jwt :=
  createAccessToken "sec" "iss" 50 "u@x" { accessToken := "ga", refreshToken := "gr" }

/-- The AuthInfo that verifying sampleJwt at time 100 yields. -/
def sampleAuthInfo : AuthInfo :=
  { token := sampleJwt
    clientId := "mcp-client"
    scopes := ["read"]
    expiresAt := 86450
    userId := "u@x"
    googleAccessToken := "ga"
    googleRefreshToken := "gr" }

/-- A token signed with the wrong key. -/
def badJwt : Jwt :=
  { payload := sampleJwt.payload, signedWith := "other" }

/-! ## Claim theorems -/

/-- Claim C1: for every PKCE pair where the challenge is the hash of the
verifier, a stored unexpired authorization code created with that
challenge, presented to the token endpoint with grant_type
authorization_code, that verifier and all required parameters, yields a
bearer-token response exactly once; a second exchange attempt with the
same code fails with error invalid_grant. -/
theorem exchange_token_pkce_single_use
    (jwtSecret issuer : String) (hash : String → String) (st : OAuthStores)
    (now now2 : Nat)
    (code verifier redirectUri clientId rid : String)
    (verifier2 redirectUri2 clientId2 rid2 : String) (ac : AuthorizationCode)
    (hcode : code ≠ "") (hver : verifier ≠ "") (hred : redirectUri ≠ "")
    (hcli : clientId ≠ "")
    (hver2 : verifier2 ≠ "") (hred2 : redirectUri2 ≠ "") (hcli2 : clientId2 ≠ "")
    (hlook : mapGet st.authorizationCodes code = some ac)
    (hunexp : ¬ ac.expiresAt < now)
    (hpkce : hash verifier = ac.codeChallenge) :
    (tokenEndpoint jwtSecret issuer hash st now (some "authorization_code")
        (some code) (some redirectUri) (some verifier) (some clientId) none rid).2
      = .success (createAccessToken jwtSecret issuer now ac.userId ac.googleTokens)
          "Bearer" 86400 (some rid) ac.scope
    ∧ (tokenEndpoint jwtSecret issuer hash
        (tokenEndpoint jwtSecret issuer hash st now (some "authorization_code")
          (some code) (some redirectUri) (some verifier) (some clientId) none rid).1
        now2 (some "authorization_code")
        (some code) (some redirectUri2) (some verifier2) (some clientId2) none rid2).2
      = .errorResp 400 "invalid_grant" "Invalid or expired authorization code" := by
  constructor
  · simp [tokenEndpoint, truthy, hcode, hver, hred, hcli, hlook, hunexp, hpkce]
  · simp [tokenEndpoint, truthy, hcode, hver, hred, hcli, hlook, hunexp, hpkce,
      hver2, hred2, hcli2, mapGet_mapDelete_self]

/-- Witness for C1 at the sample stores. -/
theorem exchange_token_pkce_single_use_witness :
    (tokenEndpoint "sec" "iss" sampleHash sampleStores 500 (some "authorization_code")
        (some "code1") (some "https://a/cb") (some "v") (some "cl") none "rid").2
      = .success (createAccessToken "sec" "iss" 500 sampleAuthCode.userId
          sampleAuthCode.googleTokens) "Bearer" 86400 (some "rid") sampleAuthCode.scope
    ∧ (tokenEndpoint "sec" "iss" sampleHash
        (tokenEndpoint "sec" "iss" sampleHash sampleStores 500 (some "authorization_code")
          (some "code1") (some "https://a/cb") (some "v") (some "cl") none "rid").1
        600 (some "authorization_code")
        (some "code1") (some "https://a/cb") (some "v2") (some "cl") none "rid2").2
      = .errorResp 400 "invalid_grant" "Invalid or expired authorization code" :=
  exchange_token_pkce_single_use "sec" "iss" sampleHash sampleStores 500 600
    "code1" "v" "https://a/cb" "cl" "rid" "v2" "https://a/cb" "cl" "rid2" sampleAuthCode
    (by decide) (by decide) (by decide) (by decide) (by decide) (by decide) (by decide)
    rfl (by decide) rfl

/-- Claim C2 as stated is false: a PKCE-verifier mismatch returns
invalid_grant but leaves the authorization code in the store, so the code
is not absent after the first lookup regardless of outcome. -/
theorem authorization_code_kept_on_pkce_mismatch_cx :
    (tokenEndpoint "sec" "iss" sampleHash sampleStores 500 (some "authorization_code")
        (some "code1") (some "https://a/cb") (some "w") (some "cl") none "rid").2
      = .errorResp 400 "invalid_grant" "Invalid code verifier"
    ∧ mapGet (tokenEndpoint "sec" "iss" sampleHash sampleStores 500
        (some "authorization_code")
        (some "code1") (some "https://a/cb") (some "w") (some "cl") none "rid").1.authorizationCodes
        "code1" = some sampleAuthCode := by
  exact ⟨rfl, rfl⟩

/-- Claim C2 amended: after the first exchange_token call that looks up a
given code, the code is absent from the store when the lookup finds it
missing or expired and when the exchange succeeds; a PKCE-verifier
mismatch, however, returns invalid_grant and leaves the code in the
store. -/
theorem authorization_code_deletion_cases
    (jwtSecret issuer : String) (hash : String → String) (st : OAuthStores)
    (now : Nat) (code verifier redirectUri clientId rid : String)
    (hcode : code ≠ "") (hver : verifier ≠ "") (hred : redirectUri ≠ "")
    (hcli : clientId ≠ "") :
    (mapGet st.authorizationCodes code = none →
      mapGet (tokenEndpoint jwtSecret issuer hash st now (some "authorization_code")
          (some code) (some redirectUri) (some verifier) (some clientId) none rid).1.authorizationCodes
          code = none
      ∧ (tokenEndpoint jwtSecret issuer hash st now (some "authorization_code")
          (some code) (some redirectUri) (some verifier) (some clientId) none rid).2
        = .errorResp 400 "invalid_grant" "Invalid or expired authorization code")
    ∧ (∀ ac, mapGet st.authorizationCodes code = some ac → ac.expiresAt < now →
      mapGet (tokenEndpoint jwtSecret issuer hash st now (some "authorization_code")
          (some code) (some redirectUri) (some verifier) (some clientId) none rid).1.authorizationCodes
          code = none
      ∧ (tokenEndpoint jwtSecret issuer hash st now (some "authorization_code")
          (some code) (some redirectUri) (some verifier) (some clientId) none rid).2
        = .errorResp 400 "invalid_grant" "Invalid or expired authorization code")
    ∧ (∀ ac, mapGet st.authorizationCodes code = some ac → ¬ ac.expiresAt < now →
      hash verifier = ac.codeChallenge →
      mapGet (tokenEndpoint jwtSecret issuer hash st now (some "authorization_code")
          (some code) (some redirectUri) (some verifier) (some clientId) none rid).1.authorizationCodes
          code = none)
    ∧ (∀ ac, mapGet st.authorizationCodes code = some ac → ¬ ac.expiresAt < now →
      hash verifier ≠ ac.codeChallenge →
      mapGet (tokenEndpoint jwtSecret issuer hash st now (some "authorization_code")
          (some code) (some redirectUri) (some verifier) (some clientId) none rid).1.authorizationCodes
          code = some ac
      ∧ (tokenEndpoint jwtSecret issuer hash st now (some "authorization_code")
          (some code) (some redirectUri) (some verifier) (some clientId) none rid).2
        = .errorResp 400 "invalid_grant" "Invalid code verifier") := by
  refine ⟨?_, ?_, ?_, ?_⟩
  · intro hnone
    simp [tokenEndpoint, truthy, hcode, hver, hred, hcli, hnone, mapGet_mapDelete_self]
  · intro ac hlook hexp
    simp [tokenEndpoint, truthy, hcode, hver, hred, hcli, hlook, hexp, mapGet_mapDelete_self]
  · intro ac hlook hunexp hpkce
    simp [tokenEndpoint, truthy, hcode, hver, hred, hcli, hlook, hunexp, hpkce,
      mapGet_mapDelete_self]
  · intro ac hlook hunexp hpkce
    simp [tokenEndpoint, truthy, hcode, hver, hred, hcli, hlook, hunexp, hpkce]

/-- Witness for the amended C2: the PKCE-mismatch branch at the sample
stores. -/
theorem authorization_code_deletion_cases_witness :
    mapGet (tokenEndpoint "sec" "iss" sampleHash sampleStores 500
        (some "authorization_code")
        (some "code1") (some "https://a/cb") (some "w") (some "cl") none "rid").1.authorizationCodes
        "code1" = some sampleAuthCode
    ∧ (tokenEndpoint "sec" "iss" sampleHash sampleStores 500 (some "authorization_code")
        (some "code1") (some "https://a/cb") (some "w") (some "cl") none "rid").2
      = .errorResp 400 "invalid_grant" "Invalid code verifier" :=
  (authorization_code_deletion_cases "sec" "iss" sampleHash sampleStores 500
      "code1" "w" "https://a/cb" "cl" "rid"
      (by decide) (by decide) (by decide) (by decide)).2.2.2 sampleAuthCode
    rfl (by decide) (by decide)

/-- Claim C3 fails on the code: the custom-scheme pattern also matches the
protocol http, so an HTTP redirect URI with the non-loopback host evil.com
is accepted by the shared validation instead of being rejected with a 400
error; the HTTPS and loopback acceptances do hold, and an unparseable URI
is rejected. -/
theorem http_nonloopback_redirect_accepted :
    validateRedirectUri "http://evil.com/callback" = true
    ∧ parseURL "http://evil.com/callback"
        = some { protocol := "http:", hostname := "evil.com" }
    ∧ ("evil.com" == "localhost") = false
    ∧ ("evil.com" == "127.0.0.1") = false
    ∧ protocolMatchesCustomScheme "http:" = true
    ∧ validateRedirectUri "https://example.com/cb" = true
    ∧ validateRedirectUri "http://localhost:3000/cb" = true
    ∧ validateRedirectUri "http://127.0.0.1/cb" = true
    ∧ validateRedirectUri "not a url" = false := by
  refine ⟨rfl, rfl, by decide, by decide, rfl, rfl, rfl, rfl, rfl⟩

/-- Claim C4: bearer-token verification rejects with the invalid-token
error every token failing the signature, audience, issuer or expiry check,
and every token minted by createAccessToken verifies to exactly the
embedded subject and upstream credential pair, unchanged. -/
theorem verify_bearer_reject_and_roundtrip (jwtSecret issuer : String) (now : Nat) :
    (∀ t : Jwt,
      t.signedWith ≠ jwtSecret ∨ t.payload.aud ≠ "brainloop-mcp-server"
        ∨ t.payload.iss ≠ issuer ∨ t.payload.exp ≤ now →
      verifyAccessToken jwtSecret issuer now t = .error "Invalid or expired access token")
    ∧ (∀ (userId : String) (gt : GoogleTokens) (iat : Nat), now < iat + 86400 →
      verifyAccessToken jwtSecret issuer now (createAccessToken jwtSecret issuer iat userId gt)
        = .ok
          { token := createAccessToken jwtSecret issuer iat userId gt
            clientId := "mcp-client"
            scopes := ["read"]
            expiresAt := iat + 86400
            userId := userId
            googleAccessToken := gt.accessToken
            googleRefreshToken := gt.refreshToken }) := by
  constructor
  · intro t h
    have hno : ¬ (t.signedWith = jwtSecret ∧ t.payload.aud = "brainloop-mcp-server"
        ∧ t.payload.iss = issuer ∧ now < t.payload.exp) := by
      rcases h with h | h | h | h
      · exact fun hc => h hc.1
      · exact fun hc => h hc.2.1
      · exact fun hc => h hc.2.2.1
      · exact fun hc => absurd hc.2.2.2 (not_lt.mpr h)
    simp [verifyAccessToken, hno]
  · intro userId gt iat hlt
    simp [verifyAccessToken, createAccessToken, hlt]

/-- Witness for C4: a wrong-key token is rejected and the sample mint-then-
verify round trip returns the embedded credentials. -/
theorem verify_bearer_reject_and_roundtrip_witness :
    verifyAccessToken "sec" "iss" 100 badJwt = .error "Invalid or expired access token"
    ∧ verifyAccessToken "sec" "iss" 100 sampleJwt
      = .ok
        { token := createAccessToken "sec" "iss" 50 "u@x"
            { accessToken := "ga", refreshToken := "gr" }
          clientId := "mcp-client"
          scopes := ["read"]
          expiresAt := 50 + 86400
          userId := "u@x"
          googleAccessToken := "ga"
          googleRefreshToken := "gr" } :=
  ⟨(verify_bearer_reject_and_roundtrip "sec" "iss" 100).1 badJwt (Or.inl (by decide)),
   (verify_bearer_reject_and_roundtrip "sec" "iss" 100).2 "u@x"
     { accessToken := "ga", refreshToken := "gr" } 50 (by decide)⟩

/-- Claim C5: for every identity-provider callback carrying code and
state, a missing pending entry under the key half of the state, or a
stored upstream state differing from the supplied state half, fails
invalid_request with no state change and no authorization code created;
on an exact match the pending entry is deleted, a code bound to the
original code_challenge and redirect_uri is stored, and the redirect back
to the client carries the code and the original client state. -/
theorem google_callback_state_binding (st : OAuthStores) (now : Nat)
    (gcode s : String) (gat grt userEmail newAuthCode : String)
    (hgc : gcode ≠ "") (hs : s ≠ "") :
    (∀ upstreamOk, mapGet st.pendingAuthorizations (splitState s).1 = none →
      handleGoogleCallback st now (some gcode) (some s) none upstreamOk
          gat grt userEmail newAuthCode
        = (st, .errorResp 400 "invalid_request" "Invalid state parameter"))
    ∧ (∀ upstreamOk pa, mapGet st.pendingAuthorizations (splitState s).1 = some pa →
      (splitState s).2 ≠ some pa.googleState →
      handleGoogleCallback st now (some gcode) (some s) none upstreamOk
          gat grt userEmail newAuthCode
        = (st, .errorResp 400 "invalid_request" "Invalid state parameter"))
    ∧ (∀ pa, mapGet st.pendingAuthorizations (splitState s).1 = some pa →
      (splitState s).2 = some pa.googleState →
      mapGet (handleGoogleCallback st now (some gcode) (some s) none true
          gat grt userEmail newAuthCode).1.pendingAuthorizations (splitState s).1 = none
      ∧ mapGet (handleGoogleCallback st now (some gcode) (some s) none true
          gat grt userEmail newAuthCode).1.authorizationCodes newAuthCode
        = some
          { clientId := pa.clientId
            redirectUri := pa.redirectUri
            codeChallenge := pa.codeChallenge
            userId := userEmail
            googleTokens := { accessToken := gat, refreshToken := grt }
            scope := pa.scope
            expiresAt := now + AUTHORIZATION_CODE_TIMEOUT_MS }
      ∧ (handleGoogleCallback st now (some gcode) (some s) none true
          gat grt userEmail newAuthCode).2
        = .redirect pa.redirectUri newAuthCode pa.state) := by
  refine ⟨?_, ?_, ?_⟩
  · intro upstreamOk hnone
    simp [handleGoogleCallback, truthy, hgc, hs, hnone]
  · intro upstreamOk pa hlook hmis
    simp [handleGoogleCallback, truthy, hgc, hs, hlook, hmis]
  · intro pa hlook hmatch
    simp [handleGoogleCallback, truthy, hgc, hs, hlook, hmatch,
      mapGet_mapDelete_self, mapGet_mapSet_self]

/-- Witness for C5: the matching callback against the sample pending
authorization stores the bound code and redirects with the original
state. -/
theorem google_callback_state_binding_witness :
    mapGet (handleGoogleCallback samplePendingStores 100 (some "gc") (some "k1:g1")
        none true "gat" "grt" "u@x" "newcode").1.pendingAuthorizations "k1" = none
    ∧ mapGet (handleGoogleCallback samplePendingStores 100 (some "gc") (some "k1:g1")
        none true "gat" "grt" "u@x" "newcode").1.authorizationCodes "newcode"
      = some
        { clientId := samplePending.clientId
          redirectUri := samplePending.redirectUri
          codeChallenge := samplePending.codeChallenge
          userId := "u@x"
          googleTokens := { accessToken := "gat", refreshToken := "grt" }
          scope := samplePending.scope
          expiresAt := 100 + AUTHORIZATION_CODE_TIMEOUT_MS }
    ∧ (handleGoogleCallback samplePendingStores 100 (some "gc") (some "k1:g1")
        none true "gat" "grt" "u@x" "newcode").2
      = .redirect samplePending.redirectUri "newcode" samplePending.state :=
  (google_callback_state_binding samplePendingStores 100 "gc" "k1:g1"
      "gat" "grt" "u@x" "newcode" (by decide) (by decide)).2.2 samplePending
    rfl (by decide)

/-- Claim C6: within one downstream call, a 401 naming an expired or
invalid token triggers exactly one refresh callback invocation, the
session snapshot receives the new tokens before the single retried
attempt, and an authentication failure on the retry propagates as an
error with no second refresh and no further attempt. -/
theorem make_request_single_refresh_retry (resp1 resp2 : HttpResp)
    (nt : GoogleTokens) (sa : SessionAuth)
    (h401 : resp1.status = 401) (hbody : isTokenExpiredBody resp1.body = true) :
    (makeRequest resp1 resp2 true (.ok nt) sa).refreshCount = 1
    ∧ (makeRequest resp1 resp2 true (.ok nt) sa).tokensUsed
      = [sa.accessToken, nt.accessToken]
    ∧ (makeRequest resp1 resp2 true (.ok nt) sa).finalAuth
      = { accessToken := nt.accessToken, refreshToken := nt.refreshToken
          username := sa.username }
    ∧ (resp2.status = 401 →
      (makeRequest resp1 resp2 true (.ok nt) sa).outcome = .error (apiErrorMsg resp2)) := by
  have hred : makeRequest resp1 resp2 true (.ok nt) sa =
      if respOk resp2 = true then
        { outcome := .ok resp2.body
          tokensUsed := [sa.accessToken, nt.accessToken]
          refreshCount := 1
          finalAuth := { accessToken := nt.accessToken, refreshToken := nt.refreshToken
                         username := sa.username } }
      else
        { outcome := .error (apiErrorMsg resp2)
          tokensUsed := [sa.accessToken, nt.accessToken]
          refreshCount := 1
          finalAuth := { accessToken := nt.accessToken, refreshToken := nt.refreshToken
                         username := sa.username } } := by
    unfold makeRequest
    rw [if_pos ⟨h401, rfl, hbody⟩]
    rfl
  rw [hred]
  refine ⟨by split <;> rfl, by split <;> rfl, by split <;> rfl, ?_⟩
  intro h2
  have hok : respOk resp2 = false := by simp [respOk, h2]
  simp [hok]

/-- Witness for C6: a retried attempt that fails again with 401 surfaces
the error after a single refresh. -/
theorem make_request_single_refresh_retry_witness :
    (makeRequest { status := 401, body := "Invalid access token" }
        { status := 401, body := "expired" } true
        (.ok { accessToken := "ntok", refreshToken := "nref" }) sampleSessionAuth).refreshCount = 1
    ∧ (makeRequest { status := 401, body := "Invalid access token" }
        { status := 401, body := "expired" } true
        (.ok { accessToken := "ntok", refreshToken := "nref" }) sampleSessionAuth).tokensUsed
      = [sampleSessionAuth.accessToken, "ntok"]
    ∧ (makeRequest { status := 401, body := "Invalid access token" }
        { status := 401, body := "expired" } true
        (.ok { accessToken := "ntok", refreshToken := "nref" }) sampleSessionAuth).finalAuth
      = { accessToken := "ntok", refreshToken := "nref"
          username := sampleSessionAuth.username }
    ∧ ((401 : Nat) = 401 →
      (makeRequest { status := 401, body := "Invalid access token" }
        { status := 401, body := "expired" } true
        (.ok { accessToken := "ntok", refreshToken := "nref" }) sampleSessionAuth).outcome
      = .error (apiErrorMsg { status := 401, body := "expired" })) :=
  make_request_single_refresh_retry
    { status := 401, body := "Invalid access token" } { status := 401, body := "expired" }
    { accessToken := "ntok", refreshToken := "nref" } sampleSessionAuth
    rfl (by decide)

/-- Claim C7 as stated is false at the empty session id: JavaScript
truthiness treats an empty mcp-session-id header value like an absent one,
so a non-POST request carrying the empty session id — which is not a key
of the session map — is answered with a 400 error and no session is
created. -/
theorem empty_session_id_rejected_cx :
    handleRequest [] (some "") false none 0 "gen1"
      = ([], .errorResp 400 (-32600) "Missing session ID or not initialization request") :=
  rfl

/-- Claim C7 amended: for every inbound request carrying a non-empty
session id that is not a key of the session map, dispatch creates a new
session stored under that same id with the credential snapshot extracted
from the verified bearer token if present, and serves the request through
it rather than returning a missing-session error, for any request method
and payload. -/
theorem unknown_session_id_recreates_session
    (sessions : List (String × MSessionInfo)) (sid : String)
    (methodIsPost : Bool) (auth : Option AuthInfo) (now : Nat)
    (generatedId : String)
    (hsid : sid ≠ "") (hunknown : mapGet sessions sid = none) :
    handleRequest sessions (some sid) methodIsPost auth now generatedId
      = (mapSet sessions sid
          { auth := extractSessionAuth auth, createdAt := now, lastAccessed := now },
         .servedNew sid (extractSessionAuth auth)) := by
  simp [handleRequest, truthy, hsid, hunknown]

/-- Witness for the amended C7: a lost session id is recreated with the
auth snapshot of the sample bearer token. -/
theorem unknown_session_id_recreates_session_witness :
    handleRequest [] (some "lost1") false (some sampleAuthInfo) 7 "g"
      = (mapSet [] "lost1"
          { auth := extractSessionAuth (some sampleAuthInfo), createdAt := 7, lastAccessed := 7 },
         .servedNew "lost1" (extractSessionAuth (some sampleAuthInfo))) :=
  unknown_session_id_recreates_session [] "lost1" false (some sampleAuthInfo) 7 "g"
    (by decide) rfl

theorem cleanupOldSessions_fst (now : Nat) (sessions : List (String × MSessionInfo)) :
    (cleanupOldSessions now sessions).1
      = sessions.filter (fun p => !decide (now - p.2.lastAccessed > SESSION_TIMEOUT_MS)) := by
  induction sessions with
  | nil => rfl
  | cons p rest ih =>
    obtain ⟨sid, info⟩ := p
    by_cases h : now - info.lastAccessed > SESSION_TIMEOUT_MS
    · simp [cleanupOldSessions, List.filter_cons, h, ih]
    · simp [cleanupOldSessions, List.filter_cons, h, ih]

theorem cleanupOldSessions_snd (now : Nat) (sessions : List (String × MSessionInfo)) :
    (cleanupOldSessions now sessions).2
      = (sessions.filter (fun p => decide (now - p.2.lastAccessed > SESSION_TIMEOUT_MS))).flatMap
          (fun p => [.closedServer p.1, .closedTransport p.1, .deleted p.1]) := by
  induction sessions with
  | nil => rfl
  | cons p rest ih =>
    obtain ⟨sid, info⟩ := p
    by_cases h : now - info.lastAccessed > SESSION_TIMEOUT_MS
    · simp [cleanupOldSessions, List.filter_cons, h, ih]
    · simp [cleanupOldSessions, List.filter_cons, h, ih]

theorem cleanupOldSessions_idem (now : Nat) (sessions : List (String × MSessionInfo)) :
    cleanupOldSessions now (cleanupOldSessions now sessions).1
      = ((cleanupOldSessions now sessions).1, []) := by
  induction sessions with
  | nil => rfl
  | cons p rest ih =>
    obtain ⟨sid, info⟩ := p
    by_cases h : now - info.lastAccessed > SESSION_TIMEOUT_MS
    · have hfst : (cleanupOldSessions now ((sid, info) :: rest)).1
          = (cleanupOldSessions now rest).1 := by
        simp [cleanupOldSessions, h]
      rw [hfst]
      exact ih
    · have hfst : (cleanupOldSessions now ((sid, info) :: rest)).1
          = (sid, info) :: (cleanupOldSessions now rest).1 := by
        simp [cleanupOldSessions, h]
      rw [hfst]
      simp [cleanupOldSessions, h, ih]

/-- Claim C8: idle eviction removes exactly the sessions whose idle time
now minus lastAccessed strictly exceeds the one-hour threshold, emitting a
close of the Server and a close of the transport before each deletion; and
a second eviction at the same instant with no intervening traffic finds
the idle sessions already gone and removes nothing. -/
theorem cleanup_idle_exact_and_idempotent (now : Nat)
    (sessions : List (String × MSessionInfo)) :
    (cleanupOldSessions now sessions).1
      = sessions.filter (fun p => !decide (now - p.2.lastAccessed > SESSION_TIMEOUT_MS))
    ∧ (cleanupOldSessions now sessions).2
      = (sessions.filter (fun p => decide (now - p.2.lastAccessed > SESSION_TIMEOUT_MS))).flatMap
          (fun p => [.closedServer p.1, .closedTransport p.1, .deleted p.1])
    ∧ cleanupOldSessions now (cleanupOldSessions now sessions).1
      = ((cleanupOldSessions now sessions).1, []) :=
  ⟨cleanupOldSessions_fst now sessions, cleanupOldSessions_snd now sessions,
   cleanupOldSessions_idem now sessions⟩

/-- Claim C9: the refresh callback runs exactly when the first response
is a 401, a callback is configured, and the body names an invalid or
expired token; it never runs more than once; and a 401 whose body matches
neither substring surfaces as an error with no refresh and no retry. -/
theorem make_request_refresh_condition (resp1 resp2 : HttpResp) (hasCallback : Bool)
    (refreshResult : Except String GoogleTokens) (sa : SessionAuth) :
    ((makeRequest resp1 resp2 hasCallback refreshResult sa).refreshCount ≠ 0
      ↔ (resp1.status = 401 ∧ hasCallback = true ∧ isTokenExpiredBody resp1.body = true))
    ∧ (makeRequest resp1 resp2 hasCallback refreshResult sa).refreshCount ≤ 1
    ∧ (resp1.status = 401 → isTokenExpiredBody resp1.body = false →
      (makeRequest resp1 resp2 hasCallback refreshResult sa).outcome
        = .error (apiErrorMsg resp1)
      ∧ (makeRequest resp1 resp2 hasCallback refreshResult sa).refreshCount = 0
      ∧ (makeRequest resp1 resp2 hasCallback refreshResult sa).tokensUsed
        = [sa.accessToken]) := by
  by_cases hc : resp1.status = 401 ∧ hasCallback = true ∧ isTokenExpiredBody resp1.body = true
  · have hred : (makeRequest resp1 resp2 hasCallback refreshResult sa).refreshCount = 1 := by
      unfold makeRequest
      rw [if_pos hc]
      rcases refreshResult with e | nt
      · rfl
      · simp only [refreshCallbackModel]
        split <;> rfl
    refine ⟨?_, ?_, ?_⟩
    · rw [hred]
      exact iff_of_true (by decide) hc
    · rw [hred]
    · intro h401 hbody
      rw [hc.2.2] at hbody
      cases hbody
  · have hnotok : (resp1.status = 401 → isTokenExpiredBody resp1.body = false →
        respOk resp1 = false) := by
      intro h401 _
      simp [respOk, h401]
    refine ⟨?_, ?_, ?_⟩
    · unfold makeRequest
      rw [if_neg hc]
      constructor
      · intro hne
        exact absurd (by split <;> rfl) hne
      · intro hx
        exact absurd hx hc
    · unfold makeRequest
      rw [if_neg hc]
      split <;> simp
    · intro h401 hbody
      have hok : respOk resp1 = false := hnotok h401 hbody
      unfold makeRequest
      rw [if_neg hc, if_neg (by simp [hok])]
      exact ⟨rfl, rfl, rfl⟩

/-- Witness for C9: a 401 body naming neither an invalid nor an expired
token surfaces as an API error with no refresh attempted. -/
theorem make_request_refresh_condition_witness :
    (makeRequest { status := 401, body := "Forbidden: insufficient scope" }
        { status := 200, body := "ok" } true
        (.ok { accessToken := "n", refreshToken := "r" }) sampleSessionAuth).outcome
      = .error (apiErrorMsg { status := 401, body := "Forbidden: insufficient scope" })
    ∧ (makeRequest { status := 401, body := "Forbidden: insufficient scope" }
        { status := 200, body := "ok" } true
        (.ok { accessToken := "n", refreshToken := "r" }) sampleSessionAuth).refreshCount = 0
    ∧ (makeRequest { status := 401, body := "Forbidden: insufficient scope" }
        { status := 200, body := "ok" } true
        (.ok { accessToken := "n", refreshToken := "r" }) sampleSessionAuth).tokensUsed
      = [sampleSessionAuth.accessToken] :=
  (make_request_refresh_condition { status := 401, body := "Forbidden: insufficient scope" }
      { status := 200, body := "ok" } true
      (.ok { accessToken := "n", refreshToken := "r" }) sampleSessionAuth).2.2
    rfl (by decide)

/-- Claim C10: every token accepted by bearer-token verification yields
the fixed client id mcp-client and the fixed scope list containing only
read, independent of what was supplied during authorization and token
exchange. -/
theorem verify_bearer_fixed_client_and_scope (jwtSecret issuer : String) (now : Nat)
    (t : Jwt) (ai : AuthInfo)
    (h : verifyAccessToken jwtSecret issuer now t = .ok ai) :
    ai.clientId = "mcp-client" ∧ ai.scopes = ["read"] := by
  unfold verifyAccessToken at h
  split at h
  · injection h with h2
    subst h2
    exact ⟨rfl, rfl⟩
  · cases h

/-- Witness for C10 at the sample token. -/
theorem verify_bearer_fixed_client_and_scope_witness :
    sampleAuthInfo.clientId = "mcp-client" ∧ sampleAuthInfo.scopes = ["read"] :=
  verify_bearer_fixed_client_and_scope "sec" "iss" 100 sampleJwt sampleAuthInfo rfl

end BrainloopModel
